import Mathlib

/-!
Verification of the churn-prediction repository's feature-encoding contract.

The definitions below are a shallow embedding of the relevant parts of
`src/preprocessing.py` (training-time cleaning / target encoding / feature
engineering / binary and one-hot encoding) and `api/main.py` (inference-time
feature-row construction and the `/predict` handler).  Python floats are
modelled as rationals (`ℚ`), pandas DataFrames as ordered lists of named
columns, and Python dicts as ordered association lists.
-/

namespace Churn

/-! ### Small string helpers (Python `.strip()`, `.lower()`, `in`) -/

/-- Python `str.lower()`, character by character. -/
def pyLower (s : String) : String := String.mk (s.data.map Char.toLower)

/-- Python `str.strip()`: drop leading and trailing whitespace. -/
def pyStrip (s : String) : String :=
  String.mk (((s.data.dropWhile Char.isWhitespace).reverse.dropWhile Char.isWhitespace).reverse)

/-- `listHasPre n h` : the char list `n` is an initial segment of `h`. -/
def listHasPre : List Char → List Char → Bool
  | [], _ => true
  | _ :: _, [] => false
  | c :: cs, d :: ds => c == d && listHasPre cs ds

/-- `listHasSub n h` : the char list `n` occurs contiguously inside `h`. -/
def listHasSub : List Char → List Char → Bool
  | [], _ => true
  | _ :: _, [] => false
  | n, d :: ds => listHasPre n (d :: ds) || listHasSub n ds

/-- Python `needle in hay` on strings (contiguous substring test). -/
def strContains (hay needle : String) : Bool := listHasSub needle.data hay.data

/-! ### Training-side preprocessing (`src/preprocessing.py`) -/

/-- One cell of a pandas DataFrame: a string, an integer, or a numeric value. -/
inductive Cell
  | s (v : String)
  | i (v : ℤ)
  | q (v : ℚ)
deriving DecidableEq

/-- A pandas DataFrame, modelled as its ordered list of named columns. -/
abbrev DataFrame := List (String × List Cell)

/-- The cell-level coercion + imputation of `load_and_clean_data` for the
`TotalCharges` column: `pd.to_numeric(..., errors="coerce")` turns an
unparseable cell into missing (`none`), and `fillna(median_total)` replaces a
missing cell by the column median.  A parseable cell passes through unchanged. -/
def clean_total_charges (median : ℚ) (raw : Option ℚ) : ℚ := raw.getD median

/-- The cell-level mapping of `encode_target`:
`(df["Churn"] == "Yes").astype(int)`, i.e. the exact string `"Yes"` becomes 1
and every other cell (including `"No"` and unexpected values) becomes 0. -/
def encode_churn_cell (v : Cell) : Cell := if v = Cell.s "Yes" then Cell.i 1 else Cell.i 0

/-- `encode_target` (src/preprocessing.py, lines 52-61): raise
`ValueError("Target column 'Churn' not found")` when the `Churn` column is
absent, otherwise map the `Churn` column cell-wise with `encode_churn_cell`
and leave every other column unchanged. -/
def encode_target (df : DataFrame) : Except String DataFrame :=
  if df.any (fun c => c.1 == "Churn") then
    Except.ok (df.map (fun c =>
      if c.1 = "Churn" then (c.1, c.2.map encode_churn_cell) else c))
  else
    Except.error "Target column Churn not found"

/-- The binary columns listed in `encode_binary_columns`. -/
def binary_cols : List String :=
  ["gender", "Partner", "Dependents", "PhoneService",
   "PaperlessBilling",
   "OnlineSecurity", "OnlineBackup", "DeviceProtection",
   "TechSupport", "StreamingTV", "StreamingMovies"]

/-- `encode_binary_columns` (src/preprocessing.py, lines 94-117): every listed
column that exists is mapped cell-wise by `(value == "Yes").astype(int)`.
(The Python code branches on whether the column's values are a subset of
`{"Yes","No"}`, but both branches apply the identical comparison, so the
net transformation is the same in either case.)  Columns not listed are
left unchanged; listed columns absent from the frame are skipped, which the
column-wise map below reproduces. -/
def encode_binary_columns (df : DataFrame) : DataFrame :=
  df.map (fun c =>
    if binary_cols.contains c.1 then
      (c.1, c.2.map (fun v => if v = Cell.s "Yes" then Cell.i 1 else Cell.i 0))
    else c)

/-- The tenure bucketing of `add_engineered_features`
(src/preprocessing.py, lines 73-76):
`pd.cut(df["tenure"], bins=[0, 13, 25, 49, 61, inf], labels=[...], right=False)`
applied to one value.  With `right=False` the bins are the half-open intervals
`[0,13), [13,25), [25,49), [49,61), [61,inf)`; a value outside every bin
(i.e. a negative tenure) gets no label (`none`, pandas NaN). -/
def tenure_group_train (t : ℚ) : Option String :=
  if 0 ≤ t ∧ t < 13 then some "0-12"
  else if 13 ≤ t ∧ t < 25 then some "13-24"
  else if 25 ≤ t ∧ t < 49 then some "25-48"
  else if 49 ≤ t ∧ t < 61 then some "49-60"
  else if 61 ≤ t then some "60+"
  else none

/-- The monthly-charges bucketing of `add_engineered_features`
(src/preprocessing.py, lines 78-86):
`pd.cut(df["MonthlyCharges"], bins=[-inf, q33, q66, inf], labels=["low","medium","high"])`
applied to one value.  With the default `right=True` the bins are
`(-inf,q33], (q33,q66], (q66,inf)`.  (pandas requires the bin edges to be
strictly increasing; this embedding gives the interval semantics of that
`cut` call under its `q33 < q66` precondition, and for `q33 = q66` the
`medium` interval is simply empty.) -/
def monthly_bucket_train (q33 q66 v : ℚ) : Option String :=
  if v ≤ q33 then some "low"
  else if q33 < v ∧ v ≤ q66 then some "medium"
  else if q66 < v then some "high"
  else none

/-! ### Inference side (`api/main.py`) -/

/-- The request schema of the `/predict` endpoint (`PredictRequest` in
api/main.py).  `tenure : ℕ` captures pydantic's `int` + `ge=0` constraint;
the optional fields carry the same defaults as the pydantic `Field`s. -/
structure PredictRequest where
  tenure : ℕ
  monthly_charges : ℚ
  contract : String
  internet_service : String
  payment_method : String
  paperless_billing : String := "Yes"
  tech_support : String := "No"
  online_security : String := "No"
  gender : String := "Male"
  senior_citizen : ℕ := 0
  partner : String := "No"
  dependents : String := "No"
  phone_service : String := "Yes"
  online_backup : String := "No"
  device_protection : String := "No"
  streaming_tv : String := "No"
  streaming_movies : String := "No"
  multiple_lines : String := "No"

/-- `_bucket_tenure` (api/main.py, lines 61-71).  The leading underscore of
the Python name is dropped. -/
def bucket_tenure (tenure : ℕ) : String :=
  if tenure < 13 then "0-12"
  else if tenure < 25 then "13-24"
  else if tenure < 49 then "25-48"
  else if tenure < 61 then "49-60"
  else "60+"

/-- `_bucket_monthly` (api/main.py, lines 74-79). -/
def bucket_monthly (monthly_charges q33 q66 : ℚ) : String :=
  if monthly_charges ≤ q33 then "low"
  else if monthly_charges ≤ q66 then "medium"
  else "high"

/-- The four payment-method categories of the one-hot block. -/
inductive PMCat
  | bank
  | credit
  | electronic
  | mailed
deriving DecidableEq

/-- The payment-method if/elif chain of `build_feature_row`
(api/main.py, lines 126-135), applied to the stripped payment-method string.
Python's operator precedence parses line 126 as
`("Bank transfer" in pm) or (("automatic" in pm) and ("Bank" in pm))`. -/
def pmCategory (pm : String) : PMCat :=
  if strContains pm "Bank transfer" || (strContains pm "automatic" && strContains pm "Bank") then
    PMCat.bank
  else if strContains pm "Credit card" || strContains pm "Credit card (automatic)" then
    PMCat.credit
  else if strContains pm "Electronic" then
    PMCat.electronic
  else if strContains pm "Mailed" then
    PMCat.mailed
  else
    PMCat.electronic

/-- The three multiple-lines categories of the one-hot block. -/
inductive MLCat
  | noPhone
  | yes
  | no
deriving DecidableEq

/-- The multiple-lines if/elif chain of `build_feature_row`
(api/main.py, lines 139-145), applied to the stripped, lowercased string. -/
def mlCategory (ml : String) : MLCat :=
  if strContains ml "no phone" then MLCat.noPhone
  else if ml = "yes" then MLCat.yes
  else MLCat.no

/-- The repeated idiom `1 if v.strip().lower() == "yes" else 0`. -/
def yes01 (v : String) : ℚ := if pyLower (pyStrip v) = "yes" then 1 else 0

/-- Python `dict.get(k, v0)` / `d[k]` on an ordered association list
(keys are unique in every dict built below, so first match is the value). -/
def dget : List (String × ℚ) → String → ℚ → ℚ
  | [], _, v0 => v0
  | (k, v) :: d, k2, v0 => if k = k2 then v else dget d k2 v0

/-- `build_feature_row` (api/main.py, lines 82-154), as the dict it returns:
an ordered association list in insertion order.

Each one-hot block in the Python code first zero-fills its indicator keys and
then sets exactly the matching key to 1, so each indicator's final value is
`1` iff its category matches, which is what the entries below record:
* the `Contract` / `InternetService` blocks guard the set with
  `if key in row`, where `key = "<Field>_" + value.strip()`; since every key
  already in the dict either is one of the three just-added indicator keys or
  does not start with `"<Field>_"`, the guard holds exactly when the stripped
  value equals one of the three known category names;
* the `PaymentMethod` / `MultipleLines` blocks set the key chosen by their
  if/elif chains (`pmCategory` / `mlCategory`);
* the `tenure_group` / `monthly_charges_bucket` blocks set
  `"<field>_" + bucket`, and the bucket is always one of the listed labels. -/
def build_feature_row (req : PredictRequest) (q33 q66 : ℚ) : List (String × ℚ) :=
  let tenure_group := bucket_tenure req.tenure
  let monthly_bucket := bucket_monthly req.monthly_charges q33 q66
  let pm := pyStrip req.payment_method
  let ml := pyLower (pyStrip req.multiple_lines)
  [("gender", if pyLower (pyStrip req.gender) = "male" then 1 else 0),
   ("SeniorCitizen", (req.senior_citizen : ℚ)),
   ("Partner", yes01 req.partner),
   ("Dependents", yes01 req.dependents),
   ("tenure", (req.tenure : ℚ)),
   ("PhoneService", yes01 req.phone_service),
   ("OnlineSecurity", yes01 req.online_security),
   ("OnlineBackup", yes01 req.online_backup),
   ("DeviceProtection", yes01 req.device_protection),
   ("TechSupport", yes01 req.tech_support),
   ("StreamingTV", yes01 req.streaming_tv),
   ("StreamingMovies", yes01 req.streaming_movies),
   ("PaperlessBilling", yes01 req.paperless_billing),
   ("MonthlyCharges", req.monthly_charges),
   ("TotalCharges", (req.tenure : ℚ) * req.monthly_charges),
   ("total_spend", (req.tenure : ℚ) * req.monthly_charges),
   ("Contract_Month-to-month", if pyStrip req.contract = "Month-to-month" then 1 else 0),
   ("Contract_One year", if pyStrip req.contract = "One year" then 1 else 0),
   ("Contract_Two year", if pyStrip req.contract = "Two year" then 1 else 0),
   ("InternetService_DSL", if pyStrip req.internet_service = "DSL" then 1 else 0),
   ("InternetService_Fiber optic", if pyStrip req.internet_service = "Fiber optic" then 1 else 0),
   ("InternetService_No", if pyStrip req.internet_service = "No" then 1 else 0),
   ("PaymentMethod_Bank transfer (automatic)", if pmCategory pm = PMCat.bank then 1 else 0),
   ("PaymentMethod_Credit card (automatic)", if pmCategory pm = PMCat.credit then 1 else 0),
   ("PaymentMethod_Electronic check", if pmCategory pm = PMCat.electronic then 1 else 0),
   ("PaymentMethod_Mailed check", if pmCategory pm = PMCat.mailed then 1 else 0),
   ("MultipleLines_No", if mlCategory ml = MLCat.no then 1 else 0),
   ("MultipleLines_No phone service", if mlCategory ml = MLCat.noPhone then 1 else 0),
   ("MultipleLines_Yes", if mlCategory ml = MLCat.yes then 1 else 0),
   ("tenure_group_0-12", if tenure_group = "0-12" then 1 else 0),
   ("tenure_group_13-24", if tenure_group = "13-24" then 1 else 0),
   ("tenure_group_25-48", if tenure_group = "25-48" then 1 else 0),
   ("tenure_group_49-60", if tenure_group = "49-60" then 1 else 0),
   ("tenure_group_60+", if tenure_group = "60+" then 1 else 0),
   ("monthly_charges_bucket_low", if monthly_bucket = "low" then 1 else 0),
   ("monthly_charges_bucket_medium", if monthly_bucket = "medium" then 1 else 0),
   ("monthly_charges_bucket_high", if monthly_bucket = "high" then 1 else 0)]

/-- The numerical columns scaled by the StandardScaler (api/main.py, line 205). -/
def numerical_cols : List String := ["tenure", "MonthlyCharges", "TotalCharges", "total_spend"]

/-- A fitted StandardScaler over the four numerical columns: a per-column
mean and standard deviation. -/
structure Scaler where
  mean : Fin 4 → ℚ
  std : Fin 4 → ℚ

/-- `scaler.transform` on one column: `(value - mean) / std`. -/
def Scaler.transform (sc : Scaler) (i : Fin 4) (v : ℚ) : ℚ := (v - sc.mean i) / sc.std i

/-- The scaled numerical values `scaled_num` of `predict`
(api/main.py, lines 206-207): the four numerical entries of the feature row,
in `numerical_cols` order, each transformed by the loaded scaler. -/
def scaledNums (sc : Scaler) (row : List (String × ℚ)) : List ℚ :=
  [sc.transform 0 (dget row "tenure" 0),
   sc.transform 1 (dget row "MonthlyCharges" 0),
   sc.transform 2 (dget row "TotalCharges" 0),
   sc.transform 3 (dget row "total_spend" 0)]

/-- One entry of the final feature vector (api/main.py, lines 210-214): the
scaled value (`scaled_num[numerical_cols.index(c)]`) for a numerical column,
and `row.get(c, 0)` for every other column. -/
def featureEntry (row : List (String × ℚ)) (scaled : List ℚ) (c : String) : ℚ :=
  if c ∈ numerical_cols then scaled.getD (numerical_cols.indexOf c) 0
  else dget row c 0

/-- The full feature vector `X` assembled by `predict`
(api/main.py, lines 203-215): one entry per manifest column, in manifest
order. -/
def predictVector (feature_columns : List String) (req : PredictRequest)
    (q33 q66 : ℚ) (sc : Scaler) : List ℚ :=
  let row := build_feature_row req q33 q66
  feature_columns.map (featureEntry row (scaledNums sc row))

/-- Python `round(x, 2)` on a probability, modelled on `ℚ` by rounding
`100 * x` to the nearest integer (Mathlib's `round`; the models differ from
CPython only in the tie-breaking direction at exact half-cent values, which
none of the claims depend on). -/
def round2 (q : ℚ) : ℚ := ((round (100 * q) : ℤ) : ℚ) / 100

/-- The confidence-tier chain of `predict` (api/main.py, lines 218-223). -/
def confidenceOf (p : ℚ) : String :=
  if (0.8 : ℚ) ≤ p ∨ p ≤ (0.2 : ℚ) then "High"
  else if (0.6 : ℚ) ≤ p ∨ p ≤ (0.4 : ℚ) then "Medium"
  else "Low"

/-- The response schema of the `/predict` endpoint. -/
structure PredictResponse where
  churn_probability : ℚ
  prediction : String
  confidence : String
deriving DecidableEq

/-- The `/predict` handler `predict` (api/main.py, lines 193-224) after the
artifacts are loaded: the model is abstract, used only through its
probability function on the assembled vector (`predict_proba(X)[0, 1]`). -/
def predict (model : List ℚ → ℚ) (feature_columns : List String) (sc : Scaler)
    (q33 q66 : ℚ) (req : PredictRequest) : PredictResponse :=
  let X := predictVector feature_columns req q33 q66 sc
  let proba := model X
  { churn_probability := round2 proba
    prediction := if (0.5 : ℚ) ≤ proba then "Likely to Churn" else "Not Likely"
    confidence := confidenceOf proba }

/-! ### Concrete requests and frames used to evaluate the code at specific inputs -/

/-- A request whose underlying attributes match a training row with
gender = "Male" (remaining optional fields at their defaults). -/
def reqGenderMale : PredictRequest :=
  { tenure := 5
    monthly_charges := 70
    contract := "Month-to-month"
    internet_service := "DSL"
    payment_method := "Electronic check"
    gender := "Male" }

/-- A request whose multiple-lines value matches no known indicator column. -/
def reqUnknownML : PredictRequest :=
  { tenure := 1
    monthly_charges := 50
    contract := "Month-to-month"
    internet_service := "DSL"
    payment_method := "Electronic check"
    multiple_lines := "Landline" }

/-- A request with the free-text payment method "Direct Debit". -/
def reqDirectDebit : PredictRequest :=
  { tenure := 5
    monthly_charges := 70
    contract := "Month-to-month"
    internet_service := "DSL"
    payment_method := "Direct Debit" }

/-- A request with payment method "Mailed check". -/
def reqMailed : PredictRequest :=
  { tenure := 5
    monthly_charges := 70
    contract := "Month-to-month"
    internet_service := "DSL"
    payment_method := "Mailed check" }

/-- A typical fully-specified request. -/
def reqTypical : PredictRequest :=
  { tenure := 5
    monthly_charges := 70
    contract := "Month-to-month"
    internet_service := "Fiber optic"
    payment_method := "Electronic check" }

/-! ### Claims -/

/-- Claim C2: for every request and any loaded feature-column manifest, the
vector assembled by `predict` has length exactly the manifest's length, and
is built by walking the manifest in order, one entry per manifest column
(the scaled value for a numerical column, the encoded row value, default 0,
for every other column). -/
theorem c2_vector_matches_manifest :
    ∀ (fc : List String) (req : PredictRequest) (q33 q66 : ℚ) (sc : Scaler),
    (predictVector fc req q33 q66 sc).length = fc.length ∧
    predictVector fc req q33 q66 sc =
      fc.map (featureEntry (build_feature_row req q33 q66)
        (scaledNums sc (build_feature_row req q33 q66))) := by
  intro fc req q33 q66 sc
  exact ⟨List.length_map _ _, rfl⟩

/-- Claim C5: tenure bucketing follows the five fixed half-open bins
`[0,13), [13,25), [25,49), [49,61), [61,inf)` at inference, the training-time
`pd.cut` assigns every non-negative integer tenure the same label as the
inference-time `_bucket_tenure`, and the six boundary examples of the spec
hold. -/
theorem c5_tenure_bucket_bins : ∀ t : ℕ,
    tenure_group_train (t : ℚ) = some (bucket_tenure t) ∧
    (t < 13 → bucket_tenure t = "0-12") ∧
    (13 ≤ t → t < 25 → bucket_tenure t = "13-24") ∧
    (25 ≤ t → t < 49 → bucket_tenure t = "25-48") ∧
    (49 ≤ t → t < 61 → bucket_tenure t = "49-60") ∧
    (61 ≤ t → bucket_tenure t = "60+") ∧
    bucket_tenure 12 = "0-12" ∧ bucket_tenure 13 = "13-24" ∧
    bucket_tenure 24 = "13-24" ∧ bucket_tenure 25 = "25-48" ∧
    bucket_tenure 60 = "49-60" ∧ bucket_tenure 61 = "60+" := by
  intro t
  have hbins : (t < 13 → bucket_tenure t = "0-12") ∧
      (13 ≤ t → t < 25 → bucket_tenure t = "13-24") ∧
      (25 ≤ t → t < 49 → bucket_tenure t = "25-48") ∧
      (49 ≤ t → t < 61 → bucket_tenure t = "49-60") ∧
      (61 ≤ t → bucket_tenure t = "60+") := by
    unfold bucket_tenure
    refine ⟨fun h => by rw [if_pos h], fun h1 h2 => ?_, fun h1 h2 => ?_,
      fun h1 h2 => ?_, fun h1 => ?_⟩
    · rw [if_neg (by omega), if_pos h2]
    · rw [if_neg (by omega), if_neg (by omega), if_pos h2]
    · rw [if_neg (by omega), if_neg (by omega), if_neg (by omega), if_pos h2]
    · rw [if_neg (by omega), if_neg (by omega), if_neg (by omega), if_neg (by omega)]
  refine ⟨?_, hbins.1, hbins.2.1, hbins.2.2.1, hbins.2.2.2.1, hbins.2.2.2.2,
    rfl, rfl, rfl, rfl, rfl, rfl⟩
  unfold tenure_group_train
  rcases Nat.lt_or_ge t 13 with h13 | h13
  · rw [if_pos ⟨Nat.cast_nonneg t, by exact_mod_cast h13⟩, hbins.1 h13]
  · rw [if_neg (fun hc => absurd (show t < 13 by exact_mod_cast hc.2) (Nat.not_lt.mpr h13))]
    rcases Nat.lt_or_ge t 25 with h25 | h25
    · rw [if_pos ⟨by exact_mod_cast h13, by exact_mod_cast h25⟩, hbins.2.1 h13 h25]
    · rw [if_neg (fun hc => absurd (show t < 25 by exact_mod_cast hc.2) (Nat.not_lt.mpr h25))]
      rcases Nat.lt_or_ge t 49 with h49 | h49
      · rw [if_pos ⟨by exact_mod_cast h25, by exact_mod_cast h49⟩, hbins.2.2.1 h25 h49]
      · rw [if_neg (fun hc => absurd (show t < 49 by exact_mod_cast hc.2) (Nat.not_lt.mpr h49))]
        rcases Nat.lt_or_ge t 61 with h61 | h61
        · rw [if_pos ⟨by exact_mod_cast h49, by exact_mod_cast h61⟩, hbins.2.2.2.1 h49 h61]
        · rw [if_neg (fun hc => absurd (show t < 61 by exact_mod_cast hc.2) (Nat.not_lt.mpr h61)),
            if_pos (show (61 : ℚ) ≤ (t : ℚ) by exact_mod_cast h61), hbins.2.2.2.2 h61]

/-- Witness for C5 at tenure = 12. -/
theorem c5_tenure_bucket_bins_witness : bucket_tenure 12 = "0-12" :=
  (c5_tenure_bucket_bins 12).2.1 (by decide)

/-- Claim C6: for thresholds q33 ≤ q66, the monthly-charge bucket is "low"
when v ≤ q33, "medium" when q33 < v ≤ q66, and "high" when v > q66, at both
training (`pd.cut`) and inference (`_bucket_monthly`). -/
theorem c6_monthly_bucket_monotone : ∀ (q33 q66 v : ℚ), q33 ≤ q66 →
    (v ≤ q33 → bucket_monthly v q33 q66 = "low" ∧
      monthly_bucket_train q33 q66 v = some "low") ∧
    (q33 < v → v ≤ q66 → bucket_monthly v q33 q66 = "medium" ∧
      monthly_bucket_train q33 q66 v = some "medium") ∧
    (q66 < v → bucket_monthly v q33 q66 = "high" ∧
      monthly_bucket_train q33 q66 v = some "high") := by
  intro q33 q66 v h
  refine ⟨fun h1 => ?_, fun h1 h2 => ?_, fun h1 => ?_⟩
  · exact ⟨by simp [bucket_monthly, h1], by simp [monthly_bucket_train, h1]⟩
  · have hn : ¬ v ≤ q33 := not_le.mpr h1
    exact ⟨by simp [bucket_monthly, hn, h2],
      by simp [monthly_bucket_train, hn, h1, h2]⟩
  · have hn33 : ¬ v ≤ q33 := not_le.mpr (lt_of_le_of_lt h h1)
    have hn66 : ¬ v ≤ q66 := not_le.mpr h1
    exact ⟨by simp [bucket_monthly, hn33, hn66],
      by simp [monthly_bucket_train, hn33, hn66, h1]⟩

/-- Witness for C6 at q33 = 40, q66 = 70, v = 35. -/
theorem c6_monthly_bucket_monotone_witness :
    bucket_monthly 35 40 70 = "low" ∧ monthly_bucket_train 40 70 35 = some "low" :=
  (c6_monthly_bucket_monotone 40 70 35 (by norm_num)).1 (by norm_num)

/-- Claim C10: at inference the feature row's TotalCharges and total_spend
entries are both tenure × monthly_charges, hence always equal (the raw
total-charge attribute is not part of the request schema at all), whereas the
training-time cleaning keeps the raw TotalCharges value whenever it parses
and uses the column median only for an unparseable cell. -/
theorem c10_total_charges_proxy : ∀ (req : PredictRequest) (q33 q66 : ℚ),
    dget (build_feature_row req q33 q66) "TotalCharges" 0 =
      (req.tenure : ℚ) * req.monthly_charges ∧
    dget (build_feature_row req q33 q66) "total_spend" 0 =
      (req.tenure : ℚ) * req.monthly_charges ∧
    dget (build_feature_row req q33 q66) "TotalCharges" 0 =
      dget (build_feature_row req q33 q66) "total_spend" 0 ∧
    (∀ median v : ℚ, clean_total_charges median (some v) = v) ∧
    (∀ median : ℚ, clean_total_charges median none = median) :=
  fun _ _ _ => ⟨rfl, rfl, rfl, fun _ _ => rfl, fun _ => rfl⟩

/-- Claim C1 (violated by the code): the training and inference encodings
were claimed to agree column for column on the same underlying attributes.
They do not for the `gender` column: `encode_binary_columns` compares every
binary column against the exact string "Yes", so a training row with
gender = "Male" is encoded as 0, while `build_feature_row` encodes the same
request as 1 (its test is `gender.strip().lower() == "male"`).  This
evaluates both sides of the contract at that input. -/
theorem c1_gender_encoding_diverges :
    encode_binary_columns [("gender", [Cell.s "Male"])] = [("gender", [Cell.i 0])] ∧
    dget (build_feature_row reqGenderMale 35 89) "gender" 0 = 1 := by
  constructor
  · decide
  · decide

/-- Counterexample to Claim C7 as stated: the multiple-lines value
"Landline" matches no known indicator column, yet the encoder does not leave
all three MultipleLines indicator columns at 0 — the else-branch of the
chain sets MultipleLines_No to 1. -/
theorem c7_counterexample_multiple_lines :
    ¬ (dget (build_feature_row reqUnknownML 35 89) "MultipleLines_No" 0 = 0 ∧
       dget (build_feature_row reqUnknownML 35 89) "MultipleLines_No phone service" 0 = 0 ∧
       dget (build_feature_row reqUnknownML 35 89) "MultipleLines_Yes" 0 = 0) := by
  decide

/-- Claim C7 as amended: at inference an unknown categorical value is never
rejected; for contract type and internet-service type it leaves all of that
field's indicator columns at 0, while for multiple-lines a value that neither
contains "no phone" (after strip/lowercase) nor equals "yes" falls back to
the MultipleLines_No indicator (set to 1, the other two 0). -/
theorem c7_unknown_categorical_policy : ∀ (req : PredictRequest) (q33 q66 : ℚ),
    (pyStrip req.contract ∉ (["Month-to-month", "One year", "Two year"] : List String) →
      dget (build_feature_row req q33 q66) "Contract_Month-to-month" 0 = 0 ∧
      dget (build_feature_row req q33 q66) "Contract_One year" 0 = 0 ∧
      dget (build_feature_row req q33 q66) "Contract_Two year" 0 = 0) ∧
    (pyStrip req.internet_service ∉ (["DSL", "Fiber optic", "No"] : List String) →
      dget (build_feature_row req q33 q66) "InternetService_DSL" 0 = 0 ∧
      dget (build_feature_row req q33 q66) "InternetService_Fiber optic" 0 = 0 ∧
      dget (build_feature_row req q33 q66) "InternetService_No" 0 = 0) ∧
    (strContains (pyLower (pyStrip req.multiple_lines)) "no phone" = false →
      pyLower (pyStrip req.multiple_lines) ≠ "yes" →
      dget (build_feature_row req q33 q66) "MultipleLines_No" 0 = 1 ∧
      dget (build_feature_row req q33 q66) "MultipleLines_No phone service" 0 = 0 ∧
      dget (build_feature_row req q33 q66) "MultipleLines_Yes" 0 = 0) := by
  intro req q33 q66
  refine ⟨fun h => ?_, fun h => ?_, fun h1 h2 => ?_⟩
  · simp only [List.mem_cons, List.not_mem_nil, or_false, not_or] at h
    obtain ⟨h1, h2, h3⟩ := h
    have e1 : dget (build_feature_row req q33 q66) "Contract_Month-to-month" 0 =
        (if pyStrip req.contract = "Month-to-month" then 1 else 0) := rfl
    have e2 : dget (build_feature_row req q33 q66) "Contract_One year" 0 =
        (if pyStrip req.contract = "One year" then 1 else 0) := rfl
    have e3 : dget (build_feature_row req q33 q66) "Contract_Two year" 0 =
        (if pyStrip req.contract = "Two year" then 1 else 0) := rfl
    exact ⟨by rw [e1, if_neg h1], by rw [e2, if_neg h2], by rw [e3, if_neg h3]⟩
  · simp only [List.mem_cons, List.not_mem_nil, or_false, not_or] at h
    obtain ⟨h1, h2, h3⟩ := h
    have e1 : dget (build_feature_row req q33 q66) "InternetService_DSL" 0 =
        (if pyStrip req.internet_service = "DSL" then 1 else 0) := rfl
    have e2 : dget (build_feature_row req q33 q66) "InternetService_Fiber optic" 0 =
        (if pyStrip req.internet_service = "Fiber optic" then 1 else 0) := rfl
    have e3 : dget (build_feature_row req q33 q66) "InternetService_No" 0 =
        (if pyStrip req.internet_service = "No" then 1 else 0) := rfl
    exact ⟨by rw [e1, if_neg h1], by rw [e2, if_neg h2], by rw [e3, if_neg h3]⟩
  · have hml : mlCategory (pyLower (pyStrip req.multiple_lines)) = MLCat.no := by
      simp [mlCategory, h1, h2]
    have e1 : dget (build_feature_row req q33 q66) "MultipleLines_No" 0 =
        (if mlCategory (pyLower (pyStrip req.multiple_lines)) = MLCat.no then 1 else 0) := rfl
    have e2 : dget (build_feature_row req q33 q66) "MultipleLines_No phone service" 0 =
        (if mlCategory (pyLower (pyStrip req.multiple_lines)) = MLCat.noPhone then 1 else 0) := rfl
    have e3 : dget (build_feature_row req q33 q66) "MultipleLines_Yes" 0 =
        (if mlCategory (pyLower (pyStrip req.multiple_lines)) = MLCat.yes then 1 else 0) := rfl
    exact ⟨by rw [e1, hml]; simp, by rw [e2, hml]; simp, by rw [e3, hml]; simp⟩

/-- Witness for C7 as amended, at a request whose contract value "Custom"
matches no known contract indicator. -/
theorem c7_unknown_categorical_policy_witness :
    dget (build_feature_row
      { reqTypical with contract := "Custom" } 35 89) "Contract_Month-to-month" 0 = 0 :=
  ((c7_unknown_categorical_policy { reqTypical with contract := "Custom" } 35 89).1
    (by decide)).1

/-- Claim C8: for every request exactly one of the four payment-method
indicator columns is 1, chosen by the documented substring-fallback chain
("Bank transfer" or "automatic"+"Bank" → bank transfer; "Credit card" →
credit card; "Electronic" → electronic check; "Mailed" → mailed check;
anything else → electronic check); in particular the unmatched free text
"Direct Debit" maps to the PaymentMethod_Electronic check column. -/
theorem c8_payment_method_fallback :
    (∀ (req : PredictRequest) (q33 q66 : ℚ),
      (((strContains (pyStrip req.payment_method) "Bank transfer" ||
          (strContains (pyStrip req.payment_method) "automatic" &&
           strContains (pyStrip req.payment_method) "Bank")) = true →
        dget (build_feature_row req q33 q66) "PaymentMethod_Bank transfer (automatic)" 0 = 1) ∧
       ((strContains (pyStrip req.payment_method) "Bank transfer" ||
          (strContains (pyStrip req.payment_method) "automatic" &&
           strContains (pyStrip req.payment_method) "Bank")) = false →
        (strContains (pyStrip req.payment_method) "Credit card" ||
         strContains (pyStrip req.payment_method) "Credit card (automatic)") = true →
        dget (build_feature_row req q33 q66) "PaymentMethod_Credit card (automatic)" 0 = 1) ∧
       ((strContains (pyStrip req.payment_method) "Bank transfer" ||
          (strContains (pyStrip req.payment_method) "automatic" &&
           strContains (pyStrip req.payment_method) "Bank")) = false →
        (strContains (pyStrip req.payment_method) "Credit card" ||
         strContains (pyStrip req.payment_method) "Credit card (automatic)") = false →
        strContains (pyStrip req.payment_method) "Electronic" = true →
        dget (build_feature_row req q33 q66) "PaymentMethod_Electronic check" 0 = 1) ∧
       ((strContains (pyStrip req.payment_method) "Bank transfer" ||
          (strContains (pyStrip req.payment_method) "automatic" &&
           strContains (pyStrip req.payment_method) "Bank")) = false →
        (strContains (pyStrip req.payment_method) "Credit card" ||
         strContains (pyStrip req.payment_method) "Credit card (automatic)") = false →
        strContains (pyStrip req.payment_method) "Electronic" = false →
        strContains (pyStrip req.payment_method) "Mailed" = true →
        dget (build_feature_row req q33 q66) "PaymentMethod_Mailed check" 0 = 1) ∧
       ((strContains (pyStrip req.payment_method) "Bank transfer" ||
          (strContains (pyStrip req.payment_method) "automatic" &&
           strContains (pyStrip req.payment_method) "Bank")) = false →
        (strContains (pyStrip req.payment_method) "Credit card" ||
         strContains (pyStrip req.payment_method) "Credit card (automatic)") = false →
        strContains (pyStrip req.payment_method) "Electronic" = false →
        strContains (pyStrip req.payment_method) "Mailed" = false →
        dget (build_feature_row req q33 q66) "PaymentMethod_Electronic check" 0 = 1)) ∧
      dget (build_feature_row req q33 q66) "PaymentMethod_Bank transfer (automatic)" 0 +
        dget (build_feature_row req q33 q66) "PaymentMethod_Credit card (automatic)" 0 +
        dget (build_feature_row req q33 q66) "PaymentMethod_Electronic check" 0 +
        dget (build_feature_row req q33 q66) "PaymentMethod_Mailed check" 0 = 1 ∧
      (dget (build_feature_row req q33 q66) "PaymentMethod_Bank transfer (automatic)" 0 = 0 ∨
        dget (build_feature_row req q33 q66) "PaymentMethod_Bank transfer (automatic)" 0 = 1) ∧
      (dget (build_feature_row req q33 q66) "PaymentMethod_Credit card (automatic)" 0 = 0 ∨
        dget (build_feature_row req q33 q66) "PaymentMethod_Credit card (automatic)" 0 = 1) ∧
      (dget (build_feature_row req q33 q66) "PaymentMethod_Electronic check" 0 = 0 ∨
        dget (build_feature_row req q33 q66) "PaymentMethod_Electronic check" 0 = 1) ∧
      (dget (build_feature_row req q33 q66) "PaymentMethod_Mailed check" 0 = 0 ∨
        dget (build_feature_row req q33 q66) "PaymentMethod_Mailed check" 0 = 1)) ∧
    dget (build_feature_row reqDirectDebit 35 89) "PaymentMethod_Electronic check" 0 = 1 := by
  constructor
  · intro req q33 q66
    have eB : dget (build_feature_row req q33 q66) "PaymentMethod_Bank transfer (automatic)" 0 =
        (if pmCategory (pyStrip req.payment_method) = PMCat.bank then 1 else 0) := rfl
    have eC : dget (build_feature_row req q33 q66) "PaymentMethod_Credit card (automatic)" 0 =
        (if pmCategory (pyStrip req.payment_method) = PMCat.credit then 1 else 0) := rfl
    have eE : dget (build_feature_row req q33 q66) "PaymentMethod_Electronic check" 0 =
        (if pmCategory (pyStrip req.payment_method) = PMCat.electronic then 1 else 0) := rfl
    have eM : dget (build_feature_row req q33 q66) "PaymentMethod_Mailed check" 0 =
        (if pmCategory (pyStrip req.payment_method) = PMCat.mailed then 1 else 0) := rfl
    refine ⟨⟨fun hA => ?_, fun hA hB => ?_, fun hA hB hC => ?_,
        fun hA hB hC hD => ?_, fun hA hB hC hD => ?_⟩, ?_, ?_, ?_, ?_, ?_⟩
    · have : pmCategory (pyStrip req.payment_method) = PMCat.bank := by
        simp [pmCategory, hA]
      rw [eB, this]; simp
    · have : pmCategory (pyStrip req.payment_method) = PMCat.credit := by
        simp [pmCategory, hA, hB]
      rw [eC, this]; simp
    · have : pmCategory (pyStrip req.payment_method) = PMCat.electronic := by
        simp [pmCategory, hA, hB, hC]
      rw [eE, this]; simp
    · have : pmCategory (pyStrip req.payment_method) = PMCat.mailed := by
        simp [pmCategory, hA, hB, hC, hD]
      rw [eM, this]; simp
    · have : pmCategory (pyStrip req.payment_method) = PMCat.electronic := by
        simp [pmCategory, hA, hB, hC, hD]
      rw [eE, this]; simp
    · rw [eB, eC, eE, eM]
      rcases h : pmCategory (pyStrip req.payment_method) <;> simp [h]
    · rw [eB]; rcases h : pmCategory (pyStrip req.payment_method) <;> simp [h]
    · rw [eC]; rcases h : pmCategory (pyStrip req.payment_method) <;> simp [h]
    · rw [eE]; rcases h : pmCategory (pyStrip req.payment_method) <;> simp [h]
    · rw [eM]; rcases h : pmCategory (pyStrip req.payment_method) <;> simp [h]
  · decide

/-- Witness for C8 at the request with payment method "Mailed check". -/
theorem c8_payment_method_fallback_witness :
    dget (build_feature_row reqMailed 35 89) "PaymentMethod_Mailed check" 0 = 1 :=
  (c8_payment_method_fallback.1 reqMailed 35 89).1.2.2.2.1
    (by decide) (by decide) (by decide) (by decide)

/-- Claim C9: target encoding maps the exact string "Yes" to 1 and every
other cell (including "No" and unexpected values) to 0, fails with the
configuration error exactly when the Churn column is absent, and on success
leaves every non-label column unchanged (and maps the Churn column
cell-wise). -/
theorem c9_encode_target_contract : ∀ df : DataFrame,
    ((∃ e, encode_target df = Except.error e) ↔ ∀ p ∈ df, p.1 ≠ "Churn") ∧
    encode_churn_cell (Cell.s "Yes") = Cell.i 1 ∧
    (∀ v : Cell, v ≠ Cell.s "Yes" → encode_churn_cell v = Cell.i 0) ∧
    (∀ df2, encode_target df = Except.ok df2 →
      (∀ p ∈ df, p.1 ≠ "Churn" → p ∈ df2) ∧
      (∀ col : List Cell, ("Churn", col) ∈ df →
        ("Churn", col.map encode_churn_cell) ∈ df2)) := by
  intro df
  have hch : (df.any (fun c => c.1 == "Churn") = true) ↔ ∃ p ∈ df, p.1 = "Churn" := by
    simp [List.any_eq_true]
  refine ⟨?_, rfl, fun v hv => by simp [encode_churn_cell, hv], fun df2 hok => ?_⟩
  · constructor
    · rintro ⟨e, he⟩ p hp hpc
      have hany : df.any (fun c => c.1 == "Churn") = true := hch.mpr ⟨p, hp, hpc⟩
      unfold encode_target at he
      rw [if_pos hany] at he
      exact Except.noConfusion he
    · intro hall
      have hany : ¬ df.any (fun c => c.1 == "Churn") = true := by
        rw [hch]; rintro ⟨p, hp, hpc⟩; exact hall p hp hpc
      refine ⟨"Target column Churn not found", ?_⟩
      unfold encode_target
      rw [if_neg hany]
  · have hany : df.any (fun c => c.1 == "Churn") = true := by
      by_contra h
      unfold encode_target at hok
      rw [if_neg h] at hok
      exact Except.noConfusion hok
    unfold encode_target at hok
    rw [if_pos hany] at hok
    have hdf2 : df2 = df.map (fun c =>
        if c.1 = "Churn" then (c.1, c.2.map encode_churn_cell) else c) := by
      injection hok with h2
      exact h2.symm
    subst hdf2
    constructor
    · intro p hp hne
      refine List.mem_map.mpr ⟨p, hp, ?_⟩
      simp [hne]
    · intro col hcol
      refine List.mem_map.mpr ⟨("Churn", col), hcol, ?_⟩
      simp

/-- Witness for C9 at a two-column frame: the non-label tenure column is
unchanged by a successful target encoding. -/
theorem c9_encode_target_contract_witness :
    (("tenure", ([Cell.i 5] : List Cell)) ∈
      ([("Churn", [Cell.i 1, Cell.i 0]), ("tenure", [Cell.i 5])] : DataFrame)) :=
  ((c9_encode_target_contract
      [("Churn", [Cell.s "Yes", Cell.s "No"]), ("tenure", [Cell.i 5])]).2.2.2
    [("Churn", [Cell.i 1, Cell.i 0]), ("tenure", [Cell.i 5])] rfl).1
    ("tenure", [Cell.i 5]) (by decide) (by decide)

/-- Claim C3: assuming the model's probability for the assembled vector lies
in [0,1], the response's churn probability lies in [0,1] and equals that
probability rounded to 2 decimals, and the response label is
"Likely to Churn" exactly when the model probability is ≥ 0.5. -/
theorem c3_probability_and_label :
    ∀ (model : List ℚ → ℚ) (fc : List String) (sc : Scaler) (q33 q66 : ℚ)
      (req : PredictRequest),
    0 ≤ model (predictVector fc req q33 q66 sc) →
    model (predictVector fc req q33 q66 sc) ≤ 1 →
    (0 ≤ (predict model fc sc q33 q66 req).churn_probability ∧
      (predict model fc sc q33 q66 req).churn_probability ≤ 1) ∧
    (predict model fc sc q33 q66 req).churn_probability =
      round2 (model (predictVector fc req q33 q66 sc)) ∧
    ((predict model fc sc q33 q66 req).prediction = "Likely to Churn" ↔
      (0.5 : ℚ) ≤ model (predictVector fc req q33 q66 sc)) := by
  intro model fc sc q33 q66 req h0 h1
  set p := model (predictVector fc req q33 q66 sc) with hp
  have hcp : (predict model fc sc q33 q66 req).churn_probability = round2 p := rfl
  refine ⟨⟨?_, ?_⟩, hcp, ?_⟩
  · rw [hcp]
    unfold round2
    have h2 : (0 : ℤ) ≤ round (100 * p) := by
      rw [round_eq]
      have h3 : (⌊(0 : ℚ) + 1 / 2⌋ : ℤ) = 0 := Int.floor_eq_iff.mpr (by norm_num)
      calc (0 : ℤ) = ⌊(0 : ℚ) + 1 / 2⌋ := h3.symm
        _ ≤ ⌊100 * p + 1 / 2⌋ := Int.floor_le_floor (by linarith)
    exact div_nonneg (by exact_mod_cast h2) (by norm_num)
  · rw [hcp]
    unfold round2
    rw [div_le_one (by norm_num)]
    have h2 : round (100 * p) ≤ 100 := by
      rw [round_eq]
      have h3 : (⌊(100 : ℚ) + 1 / 2⌋ : ℤ) = 100 := Int.floor_eq_iff.mpr (by norm_num)
      calc ⌊100 * p + 1 / 2⌋ ≤ ⌊(100 : ℚ) + 1 / 2⌋ := Int.floor_le_floor (by linarith)
        _ = 100 := h3
    exact_mod_cast h2
  · have hpred : (predict model fc sc q33 q66 req).prediction =
        (if (0.5 : ℚ) ≤ p then "Likely to Churn" else "Not Likely") := rfl
    rw [hpred]
    by_cases h : (0.5 : ℚ) ≤ p
    · rw [if_pos h]
      exact iff_of_true rfl h
    · rw [if_neg h]
      exact iff_of_false (by decide) h

/-- Witness for C3 with the constant model 0.7. -/
theorem c3_probability_and_label_witness :
    (predict (fun _ => 0.7) [] ⟨fun _ => 0, fun _ => 1⟩ 35 89 reqTypical).prediction =
      "Likely to Churn" :=
  ((c3_probability_and_label (fun _ => 0.7) [] ⟨fun _ => 0, fun _ => 1⟩ 35 89 reqTypical
    (by norm_num) (by norm_num)).2.2).mpr (by norm_num)

/-- Claim C4: the confidence tier is "High" when p ≥ 0.8 or p ≤ 0.2,
"Medium" when p ≥ 0.6 or p ≤ 0.4 but not in the High region (High is checked
first and wins in the overlap), and "Low" otherwise; and the tier returned by
`predict` is exactly this function of the model probability. -/
theorem c4_confidence_tiers : ∀ p : ℚ, 0 ≤ p → p ≤ 1 →
    (((0.8 : ℚ) ≤ p ∨ p ≤ (0.2 : ℚ)) → confidenceOf p = "High") ∧
    (¬((0.8 : ℚ) ≤ p ∨ p ≤ (0.2 : ℚ)) → ((0.6 : ℚ) ≤ p ∨ p ≤ (0.4 : ℚ)) →
      confidenceOf p = "Medium") ∧
    (¬((0.8 : ℚ) ≤ p ∨ p ≤ (0.2 : ℚ)) → ¬((0.6 : ℚ) ≤ p ∨ p ≤ (0.4 : ℚ)) →
      confidenceOf p = "Low") ∧
    (∀ (model : List ℚ → ℚ) (fc : List String) (sc : Scaler) (q33 q66 : ℚ)
      (req : PredictRequest),
      (predict model fc sc q33 q66 req).confidence =
        confidenceOf (model (predictVector fc req q33 q66 sc))) := by
  intro p _ _
  refine ⟨fun h => ?_, fun h1 h2 => ?_, fun h1 h2 => ?_, fun _ _ _ _ _ _ => rfl⟩
  · unfold confidenceOf
    rw [if_pos h]
  · unfold confidenceOf
    rw [if_neg h1, if_pos h2]
  · unfold confidenceOf
    rw [if_neg h1, if_neg h2]

/-- Witness for C4 at p = 0.9 (High region). -/
theorem c4_confidence_tiers_witness : confidenceOf 0.9 = "High" :=
  (c4_confidence_tiers 0.9 (by norm_num) (by norm_num)).1 (Or.inl (by norm_num))

end Churn
